import Mathlib

/-
Verification development for the IntelliGo dialogue-orchestration core.

The Lean definitions below are a shallow embedding of the Python source:
  src/core/assistant.py   (session continuity: carry / reset / run_one_turn)
  src/graph/state.py      (GraphState and the data model)
  src/graph/nodes.py      (node_rewrite, node_intent_recognition,
                           node_clarify_gate, node_fetch_weather,
                           node_clothing_advice, node_trip_planning)
  src/graph/edges.py      (route_after_clarify, route_by_intent, should_replan)
  src/graph/builder.py    (the stage graph)
  src/tools/weather.py    (AMapWeatherTool.get_weather / get_forecast)
  src/agents/planner.py   (TripPlanner.plan output conversion)

External LLM calls (rewriter, router, planner, advisor) are modelled as
inputs or function parameters; machine floats of the source are modelled
as exact rationals (the claims never depend on float rounding).
-/

namespace IntelliGo

/-- Model of the Python substring operator (needle in hay) on char lists. -/
def chunkIn (needle : List Char) : List Char → Bool
  | [] => needle.isEmpty
  | c :: t => needle.isPrefixOf (c :: t) || chunkIn needle t

/-- Python substring operator on strings: strIn needle hay means needle occurs in hay. -/
def strIn (needle hay : String) : Bool :=
  chunkIn needle.data hay.data

/-- Python str.lower, applied characterwise (identity on CJK characters). -/
def lowerStr (s : String) : String :=
  String.mk (s.data.map Char.toLower)

/-- First-occurrence deduplication with an accumulator of already-seen keys.
Models the Python idiom list(dict.fromkeys(l)). -/
def nubAux (seen : List String) : List String → List String
  | [] => []
  | a :: l => if a ∈ seen then nubAux seen l else a :: nubAux (a :: seen) l

/-- Order-preserving de-duplication keeping first occurrences. -/
def nub (l : List String) : List String :=
  nubAux [] l


/-! Data model, from src/graph/state.py. -/

/-- Intent labels of UserIntent.intent_type (a closed Literal in the source). -/
inductive IntentType
  | clothing_advice
  | trip_planning
  | general_qa
  | general_chat
  | unknown
deriving DecidableEq, Repr

/-- UserIntent (state.py): intent tag plus confidence; the raw extracted-entity
payload is modelled separately as the Extracted bag below. Confidence is a
float in the source, modelled as an exact rational. -/
structure UserIntent where
  intent_type : IntentType
  confidence : Rat := 0
deriving DecidableEq, Repr

/-- The keys of WeatherInfo.raw_data that the pipeline reads downstream
(clothing rendering and suggestion generation); provider values are strings. -/
structure RawData where
  mock : Bool := false
  date : Option String := none
  daytemp : Option String := none
  nighttemp : Option String := none
  dayweather : Option String := none
  nightweather : Option String := none
deriving DecidableEq, Repr

/-- WeatherInfo (state.py). Temperature is a float in the source, modelled as
an exact rational. -/
structure WeatherInfo where
  city : String := ""
  temperature : Rat := 0
  weather : String := ""
  humidity : Int := 0
  wind_power : String := ""
  suggestion : String := ""
  raw_data : RawData := {}
deriving DecidableEq, Repr

/-- A weather_data entry: a single snapshot or a multi-day forecast list
(WeatherInfo | list[WeatherInfo] in state.py). -/
inductive WVal
  | one (w : WeatherInfo)
  | many (ws : List WeatherInfo)
deriving DecidableEq, Repr

inductive RiskLevel
  | low
  | medium
  | high
deriving DecidableEq, Repr

/-- A normalized activity record (the dict shape guaranteed by
_normalize_activity in nodes.py: time/name/description at least). -/
structure Activity where
  time : String := ""
  name : String := ""
  description : String := ""
deriving DecidableEq, Repr

structure TripDay where
  date : String := ""
  city : String := ""
  activities : List Activity := []
  weather : Option WeatherInfo := none
  risk_level : RiskLevel := .low
  backup_plan : String := ""
deriving DecidableEq, Repr

structure TripPlan where
  title : String := ""
  days : List TripDay := []
  total_budget_estimate : String := ""
  tips : List String := []
deriving DecidableEq, Repr

/-- The confirmed entity bag state.entities (a dict in the source; the keys
the code reads, with absent keys modelled as none / empty lists). -/
structure Entities where
  cities : List String := []
  duration_days : Option Int := none
  dates : List String := []
  preferences : List String := []
  budget : Option String := none
deriving DecidableEq, Repr

/-- The rewrite slot bag (RewriteSlots in agents/rewrite.py). -/
structure Slots where
  cities : List String := []
  duration_days : Option Int := none
  preferences : List String := []
  budget_text : Option String := none
  dates_text : Option String := none
deriving DecidableEq, Repr

/-- The router's extracted_entities dict, plus the keys node_intent_recognition
reads from it (cities, duration_days, preferences, budget, dates,
excluded_places, included_places). -/
structure Extracted where
  cities : List String := []
  duration_days : Option Int := none
  preferences : List String := []
  budget : Option String := none
  dates : List String := []
  excluded_places : List String := []
  included_places : List String := []
deriving DecidableEq, Repr

/-- user_profile as built by node_load_memory: relevant memory contents plus
a profile blob, both opaque text. -/
structure Profile where
  relevant_memories : List String := []
  profile : String := ""
deriving DecidableEq, Repr

/-- GraphState (state.py). Messages are opaque chat entries, modelled as
strings. Field defaults mirror the pydantic defaults. -/
structure GraphState where
  messages : List String := []
  user_input : String := ""
  rewritten_query : String := ""
  rewrite_slots : Slots := {}
  duration_days_is_default : Bool := false
  need_clarification : Bool := false
  clarifying_questions : List String := []
  clarify_only : Bool := false
  intent : Option UserIntent := none
  entities : Entities := {}
  excluded_places : List String := []
  included_places : List String := []
  weather_data : List (String × WVal) := []
  user_profile : Profile := {}
  trip_plan : Option TripPlan := none
  clothing_advice : String := ""
  final_response : String := ""
  current_node : String := ""
  needs_replan : Bool := false
  error_message : String := ""
deriving DecidableEq, Repr

/-- Python truthiness of an optional integer (None and 0 are falsy); also
models the source's membership test (value not in, list with None, the empty
string and zero). -/
def intTruthy : Option Int → Bool
  | none => false
  | some d => decide (d ≠ 0)

/-- Python truthiness of an optional string (None and the empty string are
falsy). -/
def strTruthy : Option String → Bool
  | none => false
  | some s => !s.isEmpty

/-- Python idiom (a or b) for optional provider strings: falls through on
None and on the empty string. -/
def pyOr (a : Option String) (b : String) : String :=
  match a with
  | none => b
  | some s => if s.isEmpty then b else s

/-! Session continuity, from src/core/assistant.py.

run_one_turn builds the new turn-state as
GraphState(**carry, **reset, user_input=user_input), where
_carry_from_last_state copies the seven whitelist fields from the previous
end-state (skipping None values; for the one Optional carried field,
trip_plan, skipping None coincides with copying, since the constructor
default is also None) and _reset_fields resets the eleven control/output
fields. Every other field takes its constructor default. -/

/-- The new turn-state construction of run_one_turn (assistant.py). -/
def newTurnState (user_input : String) (last : Option GraphState) : GraphState :=
  match last with
  | none =>
    { user_input := user_input }
  | some ls =>
    { messages := ls.messages
      entities := ls.entities
      user_profile := ls.user_profile
      weather_data := ls.weather_data
      trip_plan := ls.trip_plan
      excluded_places := ls.excluded_places
      included_places := ls.included_places
      user_input := user_input
      rewritten_query := ""
      rewrite_slots := {}
      need_clarification := false
      clarifying_questions := []
      clarify_only := false
      intent := none
      clothing_advice := ""
      final_response := ""
      current_node := ""
      needs_replan := false
      error_message := "" }

/-! The rewrite stage, from node_rewrite in src/graph/nodes.py. The LLM
rewriter output (agents/rewrite.py RewriteResult) is the node's input. -/

/-- RewriteResult (agents/rewrite.py), the rewriter's structured output. -/
structure RewriteResult where
  rewritten_query : String := ""
  slots : Slots := {}
  need_clarification : Bool := false
  clarifying_questions : List String := []
deriving DecidableEq, Repr

/-- The partial-update mapping returned by node_rewrite. -/
structure RewriteOut where
  rewritten_query : String
  rewrite_slots : Slots
  need_clarification : Bool
  clarifying_questions : List String
  duration_days_is_default : Bool
deriving DecidableEq, Repr

/-- The canned trip-length question node_rewrite inserts under the default
duration policy. -/
def defaultDurationQuestion : String :=
  "你这次预计玩几天（1/2/3天）？我先按 1 天游给你一个初稿。"

/-- Does a question already imply trip length (the source tests the
characters 几天 or 天 as substrings)? -/
def mentionsDuration (q : String) : Bool :=
  strIn "几天" q || strIn "天" q

/-- node_rewrite (nodes.py): slot normalization is implicit in the typed
slot bag; when duration_days is falsy (None, empty, zero) it is defaulted
to 1, the per-turn default flag is set, and a trip-length question is
inserted at the front unless one is already implied; the question list is
then truncated to its first three entries. -/
def node_rewrite (r : RewriteResult) : RewriteOut :=
  if !(intTruthy r.slots.duration_days) then
    let qs := r.clarifying_questions
    let qs := if !(qs.any mentionsDuration) then defaultDurationQuestion :: qs else qs
    { rewritten_query := r.rewritten_query
      rewrite_slots := { r.slots with duration_days := some 1 }
      need_clarification := r.need_clarification
      clarifying_questions := qs.take 3
      duration_days_is_default := true }
  else
    { rewritten_query := r.rewritten_query
      rewrite_slots := r.slots
      need_clarification := r.need_clarification
      clarifying_questions := r.clarifying_questions.take 3
      duration_days_is_default := false }

/-! The entity merge, from node_intent_recognition in src/graph/nodes.py.
The router call is external; its result (intent plus extracted entities) is
the node's input. -/

/-- The supplement step (nodes.py lines 139-157): the rewrite slots backfill
the router extraction for cities, duration (unless the default policy
produced it), preferences, budget and dates. -/
def supplementFromSlots (rs : Slots) (ddIsDefault : Bool) (ne : Extracted) :
    Extracted :=
  let ne := if !rs.cities.isEmpty && ne.cities.isEmpty then
    { ne with cities := rs.cities } else ne
  let ne := if intTruthy rs.duration_days && !(intTruthy ne.duration_days)
      && !ddIsDefault then
    { ne with duration_days := rs.duration_days } else ne
  let ne := if !rs.preferences.isEmpty && ne.preferences.isEmpty then
    { ne with preferences := rs.preferences } else ne
  let ne := if strTruthy rs.budget_text && !(strTruthy ne.budget) then
    { ne with budget := rs.budget_text } else ne
  let ne := if strTruthy rs.dates_text && ne.dates.isEmpty then
    { ne with dates := [rs.dates_text.getD ""] } else ne
  ne

/-- Fuzzy match of an excluded place against the included list: some
included entry is a substring of the place or contains it (nodes.py lines
201-210). -/
def fuzzyHit (included : List String) (place : String) : Bool :=
  included.any fun inc => strIn inc place || strIn place inc

/-- The partial-update mapping returned by node_intent_recognition. -/
structure MergeOut where
  intent : UserIntent
  entities : Entities
  excluded_places : List String
  included_places : List String
deriving DecidableEq, Repr

/-- The cross-turn merge (nodes.py lines 159-210): cities / duration / dates
/ budget are overwritten only by truthy new values, preferences are the
order-preserving de-duplicated union, inclusions accumulate, and exclusions
accumulate minus every entry fuzzy-matching an inclusion. -/
def mergeEntities (prev : Entities) (prevExcluded prevIncluded : List String)
    (ne : Extracted) : Entities × List String × List String :=
  let cities := if !ne.cities.isEmpty then ne.cities else prev.cities
  let duration := if intTruthy ne.duration_days then ne.duration_days
    else prev.duration_days
  let dates := if !ne.dates.isEmpty then ne.dates else prev.dates
  let preferences := if !ne.preferences.isEmpty then
    nub (prev.preferences ++ ne.preferences) else prev.preferences
  let budget := if strTruthy ne.budget then ne.budget else prev.budget
  let included := nub (prevIncluded ++ ne.included_places)
  let excluded := (nub (prevExcluded ++ ne.excluded_places)).filter
    fun place => !(fuzzyHit included place)
  ({ cities := cities, duration_days := duration, dates := dates,
     preferences := preferences, budget := budget },
   excluded, included)

/-- node_intent_recognition (nodes.py): router extraction, supplemented from
the rewrite slots, merged with the carried entities and place lists. -/
def node_intent_recognition (st : GraphState) (routerIntent : UserIntent)
    (routerEntities : Extracted) : MergeOut :=
  let ne := supplementFromSlots st.rewrite_slots st.duration_days_is_default
    routerEntities
  let m := mergeEntities st.entities st.excluded_places st.included_places ne
  { intent := routerIntent
    entities := m.1
    excluded_places := m.2.1
    included_places := m.2.2 }

/-- The preference component of the merge. -/
def mergePrefs (prev new : List String) : List String :=
  if !new.isEmpty then nub (prev ++ new) else prev

/-! The clarification gate, from node_clarify_gate in src/graph/nodes.py. -/

/-- The forced city question of the gate. -/
def cityClarifyQuestion : String :=
  "你想去哪个城市/目的地？（例如：武汉/成都/上海）"

/-- The final response emitted by the missing-city branch of the gate. -/
def askCityResponse : String :=
  "为了给你更合适的方案，我还需要确认一个信息：\n- " ++ cityClarifyQuestion

/-- The activity/scene question of the gate. -/
def activityClarifyQuestion : String :=
  "你这次主要会有哪些活动/场景？（例如：城市暴走/拍照、徒步登山、看展、夜景、亲子、商务/通勤）"

/-- The final response emitted by the missing-activity branch of the gate. -/
def askActivityResponse : String :=
  "我可以按活动+气温给你每天一套配套穿搭。开始前我想确认：\n- " ++ activityClarifyQuestion

def planFollowKeywords : List String :=
  ["之前", "上面", "刚才", "行程", "出行计划", "旅行计划", "按行程", "结合行程"]

def outfitKeywords : List String :=
  ["穿搭", "衣服", "带什么", "怎么穿", "配套", "outfit", "穿什么"]

def activityOutfitKeywords : List String :=
  ["根据我的活动", "按活动", "按我的活动", "活动和气温", "场景", "配套", "穿搭方案", "一身", "outfit"]

/-- The partial-update mapping returned by node_clarify_gate, together with
the turn's intent after the gate (the source may rewrite state.intent in
place in the follow-up branch). -/
structure GateOut where
  final_response : Option String := none
  clarify_only : Bool
  intent : Option UserIntent
deriving DecidableEq, Repr

/-- node_clarify_gate (nodes.py): general branches pass; the two
city-dependent intents with no city ask and terminate the turn; a follow-up
referencing the previous plan with outfit vocabulary is reclassified to
clothing_advice; an activity-based outfit request without preferences asks. -/
def node_clarify_gate (s : GraphState) : GateOut :=
  let cities := s.entities.cities
  let intentType := match s.intent with
    | some i => i.intent_type
    | none => IntentType.unknown
  if intentType = .general_qa then
    { clarify_only := false, intent := s.intent }
  else if intentType = .general_chat ∨ intentType = .unknown then
    { clarify_only := false, intent := s.intent }
  else if cities.isEmpty ∧ (intentType = .trip_planning ∨ intentType = .clothing_advice) then
    { final_response := some askCityResponse, clarify_only := true, intent := s.intent }
  else
    let text := lowerStr (s.user_input ++ "\n" ++ s.rewritten_query)
    let hitPlan := planFollowKeywords.any fun k => strIn k text
    let hitOutfit := outfitKeywords.any fun k => strIn k text
    let follow := s.trip_plan.isSome ∧ hitPlan = true ∧ (hitOutfit = true ∨ strIn "建议" text = true)
    let intent2 := if follow then
        match s.intent with
        | some i => some { i with intent_type := .clothing_advice,
                                  confidence := max i.confidence (9 / 10 : Rat) }
        | none => none
      else s.intent
    let intentType2 := if follow then IntentType.clothing_advice else intentType
    let wantsActivity := activityOutfitKeywords.any fun k => strIn k text
    let prefs := s.entities.preferences
    if intentType2 = .clothing_advice ∧ wantsActivity = true ∧ prefs.isEmpty then
      { final_response := some askActivityResponse, clarify_only := true, intent := intent2 }
    else
      { clarify_only := false, intent := intent2 }

/-! The stage graph, from src/graph/builder.py, and its conditional edges,
from src/graph/edges.py. -/

inductive NodeId
  | rewriteStage
  | intentRecognition
  | clarifyGate
  | loadMemory
  | fetchWeather
  | clothingAdvice
  | tripPlanning
  | riskAssessment
  | generalQa
  | formatResponse
  | updateMemory
deriving DecidableEq, Repr

inductive ClarifyRoute
  | ask
  | cont
deriving DecidableEq, Repr

inductive IntentBranch
  | clothing
  | planning
  | generalQa
  | general
deriving DecidableEq, Repr

inductive ReplanRoute
  | replan
  | cont
deriving DecidableEq, Repr

/-- route_after_clarify (edges.py). -/
def route_after_clarify (clarifyOnly : Bool) : ClarifyRoute :=
  if clarifyOnly then .ask else .cont

/-- route_by_intent (edges.py). -/
def route_by_intent (intent : Option UserIntent) : IntentBranch :=
  match intent with
  | none => .general
  | some i =>
    match i.intent_type with
    | .clothing_advice => .clothing
    | .trip_planning => .planning
    | .general_qa => .generalQa
    | _ => .general

/-- should_replan (edges.py). -/
def should_replan (needsReplan : Bool) : ReplanRoute :=
  if needsReplan then .replan else .cont

/-- The routing-relevant state fields the conditional edges read. -/
structure RouteFlags where
  clarify_only : Bool
  intent : Option UserIntent
  needs_replan : Bool
deriving DecidableEq, Repr

/-- The successor map of build_graph (builder.py); none after update_memory
models the END edge. -/
def graphSucc (f : RouteFlags) : NodeId → Option NodeId
  | .rewriteStage => some .intentRecognition
  | .intentRecognition => some .clarifyGate
  | .clarifyGate =>
    match route_after_clarify f.clarify_only with
    | .ask => some .updateMemory
    | .cont => some .loadMemory
  | .loadMemory => some .fetchWeather
  | .fetchWeather =>
    match route_by_intent f.intent with
    | .clothing => some .clothingAdvice
    | .planning => some .tripPlanning
    | .generalQa => some .generalQa
    | .general => some .formatResponse
  | .clothingAdvice => some .formatResponse
  | .generalQa => some .formatResponse
  | .tripPlanning =>
    match should_replan f.needs_replan with
    | .replan => some .riskAssessment
    | .cont => some .formatResponse
  | .riskAssessment => some .formatResponse
  | .formatResponse => some .updateMemory
  | .updateMemory => none

/-- The list of stages visited from a given stage under fixed routing flags
(the flags are not changed by any stage on the clarification-ask tail). -/
def traceFrom (f : RouteFlags) : Nat → NodeId → List NodeId
  | 0, n => [n]
  | fuel + 1, n =>
    n :: (match graphSucc f n with
          | none => []
          | some m => traceFrom f fuel m)

/-! The weather-fetch stage, from node_fetch_weather in src/graph/nodes.py. -/

/-- Python int(duration or 1): None and 0 become 1. -/
def pyIntOr1 : Option Int → Int
  | none => 1
  | some d => if d = 0 then 1 else d

/-- Python dict insertion on an insertion-ordered association list: an
existing key keeps its position and takes the new value, a new key is
appended. -/
def dictInsert (m : List (String × WVal)) (k : String) (v : WVal) :
    List (String × WVal) :=
  match m with
  | [] => [(k, v)]
  | (k1, v1) :: t => if k1 = k then (k1, v) :: t else (k1, v1) :: dictInsert t k v

/-- Python dict lookup on the association list. -/
def lookupKV : List (String × WVal) → String → Option WVal
  | [], _ => none
  | (k1, v) :: t, c => if k1 = c then some v else lookupKV t c

/-- The per-city fetch variant chosen by node_fetch_weather: a multi-day
forecast for a clothing-advice turn of more than one day, otherwise a single
current snapshot. -/
def fetchVariant (getW : String → WeatherInfo) (getF : String → Int → List WeatherInfo)
    (intentType : IntentType) (dur : Int) (city : String) : WVal :=
  if intentType = .clothing_advice ∧ dur > 1 then .many (getF city dur)
  else .one (getW city)

/-- node_fetch_weather (nodes.py): one record per known city, with the
fixed fallback city 北京 substituted when no city is known. The weather tool
calls are the function parameters. -/
def node_fetch_weather (getW : String → WeatherInfo)
    (getF : String → Int → List WeatherInfo) (s : GraphState) :
    List (String × WVal) :=
  let cities := s.entities.cities
  let dur := pyIntOr1 s.entities.duration_days
  let intentType := match s.intent with
    | some i => i.intent_type
    | none => IntentType.unknown
  let m := cities.foldl
    (fun m c => dictInsert m c (fetchVariant getW getF intentType dur c)) []
  if cities.isEmpty then
    dictInsert m "北京" (fetchVariant getW getF intentType dur "北京")
  else
    m

/-! The weather tool, from src/tools/weather.py. The HTTP layer is out of
scope: the decoded provider payload is the function's input. Provider values
are strings; the source's float parsing is modelled by an integer parser
(the claims never depend on fractional provider values). -/

/-- A raised Python exception. -/
inductive PyError
  | keyError (k : String)
  | indexError
  | valueError
deriving DecidableEq, Repr

/-- A record of the lives array of the live-weather payload (the keys the
code reads). -/
structure LiveRec where
  city : Option String := none
  temperature : Option String := none
  weather : Option String := none
  humidity : Option String := none
  windpower : Option String := none
deriving DecidableEq, Repr

/-- A record of the casts array of the forecast payload (the keys the code
reads). -/
structure CastRec where
  date : Option String := none
  daytemp : Option String := none
  nighttemp : Option String := none
  dayweather : Option String := none
  nightweather : Option String := none
  daypower : Option String := none
  nightpower : Option String := none
deriving DecidableEq, Repr

/-- A record of the forecasts array of the payload. -/
structure ForecastBlock where
  city : Option String := none
  casts : List CastRec := []
deriving DecidableEq, Repr

/-- The decoded provider payload. -/
structure ProviderResp where
  status : Option String := none
  info : Option String := none
  lives : Option (List LiveRec) := none
  forecasts : Option (List ForecastBlock) := none
deriving DecidableEq, Repr

/-- Integer model of Python float(s) on provider number strings: none means
the conversion raises. -/
def parseNat (l : List Char) : Option Nat :=
  if l.isEmpty then none
  else if l.all Char.isDigit then
    some (l.foldl (fun n c => 10 * n + (c.toNat - 48)) 0)
  else none

def parseNum (s : String) : Option Int :=
  match s.data with
  | '-' :: rest => (parseNat rest).map fun n => -(n : Int)
  | l => (parseNat l).map fun n => (n : Int)

/-- The built-in city-code table CITY_CODES (weather.py). -/
def CITY_CODES : List (String × String) :=
  [("北京", "110000"), ("上海", "310000"), ("广州", "440100"), ("深圳", "440300"),
   ("杭州", "330100"), ("南京", "320100"), ("苏州", "320500"), ("成都", "510100"),
   ("重庆", "500000"), ("西安", "610100"), ("武汉", "420100"), ("长沙", "430100"),
   ("天津", "120000"), ("青岛", "370200"), ("厦门", "350200"), ("三亚", "460200")]

def lookupS : List (String × String) → String → Option String
  | [], _ => none
  | (k, v) :: t, c => if k = c then some v else lookupS t c

/-- Python city.rstrip(市): drop every trailing 市 character. -/
def rstripShi (s : String) : String :=
  String.mk ((s.data.reverse.dropWhile fun c => c = '市').reverse)

/-- _get_city_code (weather.py). -/
def getCityCode (city : String) : Option String :=
  lookupS CITY_CODES (rstripShi city)

/-- The dict argument of _generate_suggestion (a live record or a cast
record), restricted to the keys the method reads. -/
structure WDict where
  weather : Option String := none
  dayweather : Option String := none
  nightweather : Option String := none
  temperature : Option String := none
  daytemp : Option String := none
  nighttemp : Option String := none
deriving DecidableEq, Repr

def liveToWDict (l : LiveRec) : WDict :=
  { weather := l.weather, temperature := l.temperature }

def castToWDict (c : CastRec) : WDict :=
  { dayweather := c.dayweather, nightweather := c.nightweather,
    daytemp := c.daytemp, nighttemp := c.nighttemp }

/-- _generate_suggestion (weather.py). A present temperature key is a
provider string, which fails the isinstance number check, so the
temperature tip fires only on the averaged day/night forecast temperatures;
a failed float conversion is caught and leaves the temperature unknown. -/
def generate_suggestion (d : WDict) : String :=
  let weather := pyOr d.weather (pyOr d.dayweather (pyOr d.nightweather ""))
  let tempNum : Option Rat :=
    match d.temperature with
    | some _ => none
    | none =>
      match d.daytemp, d.nighttemp with
      | some a, some b =>
        match parseNum a, parseNum b with
        | some x, some y => some (((x : Rat) + (y : Rat)) / 2)
        | _, _ => none
      | _, _ => none
  let tips : List String :=
    (match tempNum with
     | some t =>
       if t ≤ 5 then ["偏冷，建议羽绒/厚外套+保暖内衣，注意围巾手套。"]
       else if t ≤ 12 then ["偏凉，建议外套+毛衣/卫衣，早晚加一层。"]
       else if t ≤ 20 then ["温和，长袖为主，备薄外套防风。"]
       else ["较暖，短袖/薄长袖即可，注意防晒。"]
     | none => [])
    ++ (if strIn "雨" weather then ["建议雨具与防滑鞋。"] else [])
    ++ (if strIn "雪" weather then ["注意防滑保暖。"] else [])
    ++ (if strIn "霾" weather || strIn "沙" weather then ["空气可能较差，建议口罩。"] else [])
  if tips.isEmpty then "注意根据体感增减衣物。"
  else String.intercalate " " tips

/-- _mock_weather (weather.py). -/
def mock_weather (city : String) : WeatherInfo :=
  { city := rstripShi city
    temperature := 10
    weather := "晴"
    humidity := 50
    wind_power := "2"
    suggestion := "Mock: 早晚偏凉，建议外套。"
    raw_data := { mock := true } }

/-- _mock_forecast (weather.py); the integer raw-data temperatures are
rendered as decimal strings, as downstream formatting does. -/
def mock_forecast (city : String) (days : Int) : List WeatherInfo :=
  let base := mock_weather city
  (List.range (max 1 days).toNat).map fun i =>
    { city := base.city
      temperature := base.temperature + ((i : Int) - 1) * 2
      weather := base.weather
      humidity := base.humidity
      wind_power := base.wind_power
      suggestion := "Mock Day" ++ toString (i + 1) ++ ": " ++ base.suggestion
      raw_data := { mock := true
                    date := some ("Day" ++ toString (i + 1))
                    daytemp := some (toString (12 + i))
                    nighttemp := some (toString (6 + i)) } }

/-- The degraded record for an unknown city. -/
def unknownCityRecord (city : String) : WeatherInfo :=
  { city := city, weather := "未知",
    suggestion := "暂不支持查询 " ++ city ++ " 的天气，请检查城市名称" }

/-- The degraded record for a provider error status (raw_data keeps the
payload in the source; none of its keys read downstream are present). -/
def statusFailRecord (city : String) (resp : ProviderResp) : WeatherInfo :=
  { city := city, weather := "查询失败", suggestion := resp.info.getD "" }

/-- The extensions parameter of get_weather. -/
inductive Ext
  | base
  | all
deriving DecidableEq, Repr

/-- Python float(x or 0.0) on an optional provider string: raises on a
non-numeric non-empty string. -/
def floatOrZero (x : Option String) : Except PyError Rat :=
  match x with
  | none => .ok 0
  | some s =>
    if s.isEmpty then .ok 0
    else match parseNum s with
      | some n => .ok (n : Rat)
      | none => .error .valueError

/-- get_weather (weather.py): mock without an API key; degraded records for
an unknown city or an error status; the live branch indexes lives and
converts numbers unguarded (a raise is an error value); the forecast branch
runs inside try/except and degrades to a parse-failure record. -/
def get_weather (hasApiKey : Bool) (city : String) (resp : ProviderResp)
    (ext : Ext) : Except PyError WeatherInfo :=
  if !hasApiKey then .ok (mock_weather city)
  else
    match getCityCode city with
    | none => .ok (unknownCityRecord city)
    | some _ =>
      if resp.status ≠ some "1" then .ok (statusFailRecord city resp)
      else
        match ext with
        | .base =>
          match resp.lives with
          | none => .error (.keyError "lives")
          | some [] => .error .indexError
          | some (live :: _) => do
            let temp ← floatOrZero live.temperature
            let hum ← floatOrZero live.humidity
            pure { city := live.city.getD city
                   temperature := temp
                   weather := live.weather.getD "未知"
                   humidity := hum.num
                   wind_power := pyOr live.windpower ""
                   suggestion := generate_suggestion (liveToWDict live)
                   raw_data := {} }
        | .all =>
          let failRec : WeatherInfo :=
            { city := city, weather := "解析失败", suggestion := "预报解析失败" }
          match resp.forecasts with
          | some (fc :: _) =>
            match fc.casts with
            | cast :: _ =>
              match cast.daytemp, cast.nighttemp with
              | some a, some b =>
                match parseNum a, parseNum b with
                | some dt, some nt =>
                  .ok { city := fc.city.getD city
                        temperature := ((dt : Rat) + (nt : Rat)) / 2
                        weather := pyOr cast.dayweather (pyOr cast.nightweather "未知")
                        humidity := 0
                        wind_power := pyOr cast.daypower (pyOr cast.nightpower "")
                        suggestion := generate_suggestion (castToWDict cast)
                        raw_data := { date := cast.date, daytemp := cast.daytemp,
                                      nighttemp := cast.nighttemp,
                                      dayweather := cast.dayweather,
                                      nightweather := cast.nightweather } }
                | _, _ => .ok failRec
              | _, _ => .ok failRec
            | [] => .ok failRec
          | _ => .ok failRec

/-- get_forecast (weather.py): total — every provider outcome yields a list
of records (possibly empty when a success payload carries no casts). -/
def get_forecast (hasApiKey : Bool) (city : String) (resp : ProviderResp)
    (daysArg : Option Int) : List WeatherInfo :=
  let days := max 1 (pyIntOr1 daysArg)
  if !hasApiKey then mock_forecast city days
  else
    match getCityCode city with
    | none => [unknownCityRecord city]
    | some _ =>
      if resp.status ≠ some "1" then [statusFailRecord city resp]
      else
        match resp.forecasts.getD [] with
        | [] => [{ city := city, weather := "无数据", suggestion := "未获取到预报数据" }]
        | fc :: _ =>
          let cityName := fc.city.getD city
          (fc.casts.take days.toNat).map fun cast =>
            let avg : Rat :=
              match cast.daytemp, cast.nighttemp with
              | some a, some b =>
                match parseNum a, parseNum b with
                | some dt, some nt => ((dt : Rat) + (nt : Rat)) / 2
                | _, _ => 0
              | _, _ => 0
            { city := cityName
              temperature := avg
              weather := pyOr cast.dayweather (pyOr cast.nightweather "未知")
              humidity := 0
              wind_power := pyOr cast.daypower (pyOr cast.nightpower "")
              suggestion := generate_suggestion (castToWDict cast)
              raw_data := { date := cast.date, daytemp := cast.daytemp,
                            nighttemp := cast.nighttemp,
                            dayweather := cast.dayweather,
                            nightweather := cast.nightweather } }

/-- Did the embedded call return normally (no Python exception)? -/
def isOkE : Except PyError WeatherInfo → Bool
  | .ok _ => true
  | .error _ => false

/-- A success-status live payload with no lives array. -/
def c9BadResp : ProviderResp := { status := some "1" }

/-! The clothing-advice stage, from node_clothing_advice in
src/graph/nodes.py. The advisor LLM (clothing_advisor.advise composed with
format_advice) and the live weather call of the empty-map fallback are
function parameters. -/

/-- Python enumerate(l, start). -/
def enumFrom : Nat → List α → List (Nat × α)
  | _, [] => []
  | i, a :: t => (i, a) :: enumFrom (i + 1) t

/-- _extract_day_activity_names (nodes.py): the first-key name of every
activity dict, stripped, empties dropped, de-duplicated in order (normalized
activities carry the name in the name field). -/
def extract_day_activity_names (day : TripDay) : List String :=
  nub ((day.activities.map fun a => a.name.trim).filter fun s => !s.isEmpty)

/-- _infer_activity_tags (nodes.py). -/
def infer_activity_tags (names : List String) : List String :=
  let text := String.intercalate " " names
  let hit := fun (ws : List String) => ws.any fun w => strIn w text
  let tags :=
    (if hit ["山", "岭", "峰", "徒步", "登高", "爬"] then ["爬山/徒步（出汗+风大+上下坡）"] else [])
    ++ (if hit ["湿地", "公园", "植物园", "湖", "江", "西湖", "钱塘江", "游船"] then
        ["户外长时间（防风/防晒/耐走）"] else [])
    ++ (if hit ["博物馆", "美术馆", "展", "大剧院", "剧院"] then ["室内为主（温差/空调/体面）"] else [])
    ++ (if hit ["寺", "庙", "灵隐", "祠"] then ["寺庙/人文（端庄+好走）"] else [])
    ++ (if hit ["夜景", "夜游", "演出", "千古情", "秀"] then ["夜间活动（降温+拍照）"] else [])
    ++ (if hit ["古街", "街区", "citywalk", "暴走", "打卡", "拍照"] then ["Citywalk/拍照（轻便+上镜）"] else [])
  let tags := if tags.isEmpty then ["城市休闲（通用步行）"] else tags
  nub tags

/-- One Day-i block of the clothing response (the enumerate body of
node_clothing_advice). -/
def clothingDayBlock (adviseFmt : WeatherInfo → String → String)
    (userContext : String) (tripDays : List TripDay) (i : Nat)
    (w : WeatherInfo) : String :=
  let raw := w.raw_data
  let dt0 := (pyOr raw.date "").trim
  let date_text :=
    if lowerStr dt0 = "day" ++ toString i ∨ lowerStr dt0 = "day " ++ toString i
    then "" else dt0
  let dayweather := pyOr raw.dayweather w.weather
  let title := "### Day " ++ toString i
    ++ (if date_text.isEmpty then "" else " - " ++ date_text)
  let line :=
    match raw.daytemp, raw.nighttemp with
    | some dts, some nts =>
      let l := "- 预报：" ++ dayweather ++ "（白天 " ++ dts ++ "°C / 夜间 " ++ nts ++ "°C）"
      match raw.nightweather with
      | some nw => if !nw.isEmpty && nw ≠ dayweather then l ++ "，夜间：" ++ nw else l
      | none => l
    | _, _ => "- 预报：" ++ w.weather ++ "（体感参考约 " ++ toString w.temperature ++ "°C）"
  let activity_names :=
    match tripDays.get? (i - 1) with
    | some d => extract_day_activity_names d
    | none => []
  let tags := infer_activity_tags activity_names
  let day_plan_text :=
    if activity_names.isEmpty then "当天活动: 未提供详细行程（按城市步行/通用旅行建议）"
    else "当天活动: " ++ String.intercalate "、" (activity_names.take 6)
  let day_user_context := userContext ++ "\n\n"
    ++ "【第" ++ toString i ++ "天行程绑定】\n" ++ day_plan_text
    ++ "\n活动标签: " ++ String.intercalate ", " tags ++ "\n"
    ++ "硬性要求：summary 必须以“考虑到你今天要【活动/地点】（【活动标签】），结合当日【白天xx°C/夜间xx°C+天气】，建议：”开头。"
  (String.intercalate "\n" [title, line, "", adviseFmt w day_user_context]).trim

/-- node_clothing_advice (nodes.py): takes the first weather_data entry in
insertion order (or fetches the fallback city 北京 live when the map is
empty) and renders per-day advice from that single record. -/
def node_clothing_advice (adviseFmt : WeatherInfo → String → String)
    (fetchCurrent : String → WeatherInfo) (s : GraphState) : String :=
  let duration := pyIntOr1 s.entities.duration_days
  let cw : String × WVal :=
    match s.weather_data with
    | [] => ("北京", .one (fetchCurrent "北京"))
    | e :: _ => e
  let prefs := s.entities.preferences
  let planLines :=
    match s.trip_plan with
    | some tp =>
      if tp.days.isEmpty then []
      else tp.days.filterMap fun d =>
        let ns := extract_day_activity_names d
        if ns.isEmpty then none
        else some ("- " ++ d.date ++ " " ++ d.city ++ ": "
          ++ String.intercalate "、" (ns.take 4))
    | none => []
  let mems := s.user_profile.relevant_memories.filter fun m => !m.isEmpty
  let parts :=
    (if planLines.isEmpty then []
     else ["已生成行程（用于配套穿搭）:\n" ++ String.intercalate "\n" planLines])
    ++ (if prefs.isEmpty then [] else ["活动/场景/偏好: " ++ String.intercalate ", " prefs])
    ++ (if s.user_input.isEmpty then [] else ["用户原话: " ++ s.user_input])
    ++ (if mems.isEmpty then [] else ["用户偏好/记忆: " ++ String.intercalate ", " mems])
  let userContext0 := (String.intercalate "\n" parts).trim
  let userContext := if userContext0.isEmpty then "日常出行" else userContext0
  let forecast :=
    match cw.2 with
    | .many ws => ws.take (max 1 duration).toNat
    | .one w => [w]
  let header :=
    match cw.2 with
    | .many _ => "🌤️ **" ++ cw.1 ++ "** 未来 " ++ toString forecast.length ++ " 天穿搭建议"
    | .one w => "🌤️ **" ++ w.city ++ "** 今日穿搭建议"
  let tripDays := match s.trip_plan with
    | some tp => tp.days
    | none => []
  let blocks := header ::
    (enumFrom 1 forecast).map fun p =>
      clothingDayBlock adviseFmt userContext tripDays p.1 p.2
  (String.intercalate "\n\n" blocks).trim

/-! The trip-planning stage, from node_trip_planning in src/graph/nodes.py
and the output conversion of TripPlanner.plan in src/agents/planner.py. The
planner LLM yields a structured PlannerOutput; plan() attaches per-day
weather from weather_data and builds TripDay records without a risk tier, so
every day starts at the default low; node_trip_planning then normalizes the
activity dicts and derives the risk tiers and the replan flag. -/

structure PlannerActivityR where
  time : String := ""
  name : String := ""
  description : String := ""
  duration : String := ""
  cost : String := ""
deriving DecidableEq, Repr

structure PlannerDayR where
  date : String := ""
  city : String := ""
  activities : List PlannerActivityR := []
deriving DecidableEq, Repr

structure PlannerOutputR where
  title : String := ""
  days : List PlannerDayR := []
  total_budget_estimate : String := ""
  tips : List String := []
deriving DecidableEq, Repr

/-- _normalize_activity (nodes.py) applied to a planner activity dict: the
name falls back to 行程活动, the description strips to empty. -/
def normalizeActivity (a : PlannerActivityR) : Activity :=
  { time := a.time
    name := if a.name.trim.isEmpty then "行程活动" else a.name.trim
    description := if a.description.trim.isEmpty then "" else a.description.trim }

/-- The per-day weather attachment of TripPlanner.plan: a multi-day list is
indexed by the day number, clamped to its last entry; a single record is
used as is. An empty forecast list is modelled as an absent snapshot. -/
def pickWeather (weather_data : List (String × WVal)) (idx : Nat)
    (city : String) : Option WeatherInfo :=
  match lookupKV weather_data city with
  | none => none
  | some (.one w) => some w
  | some (.many []) => none
  | some (.many (w :: ws)) => some ((w :: ws).getD (min idx ((w :: ws).length - 1)) w)

/-- The TripPlan built by TripPlanner.plan followed by the activity
normalization of node_trip_planning; risk_level is not passed, so every day
carries the default low tier. -/
def planToTripPlan (weather_data : List (String × WVal))
    (po : PlannerOutputR) : TripPlan :=
  { title := po.title
    days := (enumFrom 0 po.days).map fun p =>
      { date := p.2.date
        city := p.2.city
        activities := p.2.activities.map normalizeActivity
        weather := pickWeather weather_data p.1 p.2.city }
    total_budget_estimate := po.total_budget_estimate
    tips := po.tips }

/-- The rain-class keyword test of the risk loop (nodes.py line 565). -/
def rainHit (w : WeatherInfo) : Bool :=
  strIn "雨" w.weather

/-- The storm/snow-class keyword test of the risk loop (nodes.py line 568). -/
def snowStormHit (w : WeatherInfo) : Bool :=
  strIn "暴" w.weather || strIn "雪" w.weather

/-- The two sequential risk assignments of the loop body: rain sets medium,
then storm/snow overrides to high. -/
def riskDay (d : TripDay) : TripDay :=
  let d1 := if (match d.weather with | some w => rainHit w | none => false)
    then { d with risk_level := .medium } else d
  if (match d1.weather with | some w => snowStormHit w | none => false)
    then { d1 with risk_level := .high } else d1

/-- Did a day set the replan flag (rain or storm/snow matched on a present
snapshot)? -/
def dayReplanHit (d : TripDay) : Bool :=
  match d.weather with
  | some w => rainHit w || snowStormHit w
  | none => false

/-- node_trip_planning (nodes.py): planner output converted to a TripPlan,
then the deterministic risk derivation; the second component is the
needs_replan flag. -/
def node_trip_planning (weather_data : List (String × WVal))
    (po : PlannerOutputR) : TripPlan × Bool :=
  let plan := planToTripPlan weather_data po
  ({ plan with days := plan.days.map riskDay }, plan.days.any dayReplanHit)

theorem chunkIn_self (l : List Char) : chunkIn l l = true := by
  cases l with
  | nil => rfl
  | cons c t =>
    simp only [chunkIn, Bool.or_eq_true]
    left
    simp [List.isPrefixOf_iff_prefix]

theorem strIn_self (s : String) : strIn s s = true :=
  chunkIn_self s.data

theorem mem_nubAux {a : String} {seen l : List String} :
    a ∈ nubAux seen l ↔ a ∈ l ∧ a ∉ seen := by
  induction l generalizing seen with
  | nil => simp [nubAux]
  | cons b t ih =>
    simp only [nubAux]
    by_cases hb : b ∈ seen
    · rw [if_pos hb]
      simp only [ih, List.mem_cons]
      constructor
      · rintro ⟨h1, h2⟩; exact ⟨Or.inr h1, h2⟩
      · rintro ⟨h1 | h1, h2⟩
        · exact absurd (h1 ▸ hb) h2
        · exact ⟨h1, h2⟩
    · rw [if_neg hb]
      simp only [List.mem_cons, ih]
      by_cases hab : a = b
      · subst hab
        simp [hb]
      · simp only [hab, false_or]

theorem nubAux_congr {s₁ s₂ l : List String} (h : ∀ a, a ∈ s₁ ↔ a ∈ s₂) :
    nubAux s₁ l = nubAux s₂ l := by
  induction l generalizing s₁ s₂ with
  | nil => rfl
  | cons b t ih =>
    simp only [nubAux]
    by_cases hb : b ∈ s₁
    · rw [if_pos hb, if_pos ((h b).mp hb), ih h]
    · rw [if_neg hb, if_neg (fun hc => hb ((h b).mpr hc))]
      congr 1
      refine ih fun a => ?_
      simp only [List.mem_cons, h a]

theorem nubAux_append (seen l₁ l₂ : List String) :
    nubAux seen (l₁ ++ l₂) = nubAux seen l₁ ++ nubAux (l₁ ++ seen) l₂ := by
  induction l₁ generalizing seen with
  | nil => simp [nubAux]
  | cons b t ih =>
    rw [List.cons_append]
    simp only [nubAux]
    by_cases hb : b ∈ seen
    · rw [if_pos hb, if_pos hb, ih]
      congr 1
      refine nubAux_congr fun a => ?_
      simp only [List.mem_append, List.cons_append, List.mem_cons]
      constructor
      · rintro (h | h)
        · exact Or.inr (Or.inl h)
        · exact Or.inr (Or.inr h)
      · rintro (rfl | h | h)
        · exact Or.inr hb
        · exact Or.inl h
        · exact Or.inr h
    · rw [if_neg hb, if_neg hb, ih, List.cons_append]
      congr 2
      refine nubAux_congr fun a => ?_
      simp only [List.mem_append, List.mem_cons, List.cons_append]
      tauto

theorem nubAux_eq_nil {seen l : List String} (h : ∀ a ∈ l, a ∈ seen) :
    nubAux seen l = [] := by
  induction l with
  | nil => rfl
  | cons b t ih =>
    simp only [nubAux, if_pos (h b (List.mem_cons_self b t))]
    exact ih fun a ha => h a (List.mem_cons_of_mem _ ha)

theorem nubAux_of_nodup {l : List String} (seen : List String)
    (hn : l.Nodup) (hd : ∀ a ∈ l, a ∉ seen) : nubAux seen l = l := by
  induction l generalizing seen with
  | nil => rfl
  | cons b t ih =>
    have hb : b ∉ seen := hd b (List.mem_cons_self b t)
    simp only [nubAux, if_neg hb]
    congr 1
    refine ih (b :: seen) (List.nodup_cons.mp hn).2 fun a ha => ?_
    intro hc
    rcases List.mem_cons.mp hc with rfl | h
    · exact (List.nodup_cons.mp hn).1 ha
    · exact hd a (List.mem_cons_of_mem _ ha) h

theorem nodup_nubAux (seen l : List String) : (nubAux seen l).Nodup := by
  induction l generalizing seen with
  | nil => exact List.nodup_nil
  | cons b t ih =>
    simp only [nubAux]
    by_cases hb : b ∈ seen
    · rw [if_pos hb]; exact ih seen
    · rw [if_neg hb]
      refine List.nodup_cons.mpr ⟨fun hc => ?_, ih (b :: seen)⟩
      exact (mem_nubAux.mp hc).2 (List.mem_cons_self b seen)

theorem nub_idem (l : List String) : nub (nub l) = nub l :=
  nubAux_of_nodup [] (nodup_nubAux [] l) (by simp)

theorem mem_nub {a : String} {l : List String} : a ∈ nub l ↔ a ∈ l := by
  simp [nub, mem_nubAux]

/-! Projection lemmas for the supplement and merge steps. -/

theorem supplement_cities (rs : Slots) (dd : Bool) (ne : Extracted) :
    (supplementFromSlots rs dd ne).cities
      = if !rs.cities.isEmpty && ne.cities.isEmpty then rs.cities else ne.cities := by
  simp only [supplementFromSlots]
  split_ifs <;> rfl

theorem supplement_duration (rs : Slots) (dd : Bool) (ne : Extracted) :
    (supplementFromSlots rs dd ne).duration_days
      = if intTruthy rs.duration_days && !(intTruthy ne.duration_days) && !dd
        then rs.duration_days else ne.duration_days := by
  simp only [supplementFromSlots]
  split_ifs <;> rfl

theorem supplement_preferences (rs : Slots) (dd : Bool) (ne : Extracted) :
    (supplementFromSlots rs dd ne).preferences
      = if !rs.preferences.isEmpty && ne.preferences.isEmpty
        then rs.preferences else ne.preferences := by
  simp only [supplementFromSlots]
  split_ifs <;> rfl

theorem supplement_excluded (rs : Slots) (dd : Bool) (ne : Extracted) :
    (supplementFromSlots rs dd ne).excluded_places = ne.excluded_places := by
  simp only [supplementFromSlots]
  split_ifs <;> rfl

theorem supplement_included (rs : Slots) (dd : Bool) (ne : Extracted) :
    (supplementFromSlots rs dd ne).included_places = ne.included_places := by
  simp only [supplementFromSlots]
  split_ifs <;> rfl

theorem mergeEntities_cities (p : Entities) (pe pi : List String) (ne : Extracted) :
    (mergeEntities p pe pi ne).1.cities
      = if !ne.cities.isEmpty then ne.cities else p.cities := rfl

theorem mergeEntities_duration (p : Entities) (pe pi : List String) (ne : Extracted) :
    (mergeEntities p pe pi ne).1.duration_days
      = if intTruthy ne.duration_days then ne.duration_days else p.duration_days := rfl

theorem mergeEntities_preferences (p : Entities) (pe pi : List String) (ne : Extracted) :
    (mergeEntities p pe pi ne).1.preferences
      = mergePrefs p.preferences ne.preferences := rfl

theorem mergeEntities_included (p : Entities) (pe pi : List String) (ne : Extracted) :
    (mergeEntities p pe pi ne).2.2 = nub (pi ++ ne.included_places) := rfl

theorem mergeEntities_excluded (p : Entities) (pe pi : List String) (ne : Extracted) :
    (mergeEntities p pe pi ne).2.1
      = (nub (pe ++ ne.excluded_places)).filter
          (fun place => !(fuzzyHit (nub (pi ++ ne.included_places)) place)) := rfl

/-- Claim C2: the entity merge keeps cities silently carried forward — an
extraction (router entities plus rewrite slots) supplying no cities leaves
entities.cities as it was, a non-empty router extraction overwrites it, and
an empty router extraction with non-empty slot cities takes the slot value;
an empty extraction never clears a non-empty carried list. -/
theorem cities_silent_carry_forward (st : GraphState) (ri : UserIntent)
    (ex : Extracted) :
    (ex.cities = [] → st.rewrite_slots.cities = [] →
      (node_intent_recognition st ri ex).entities.cities = st.entities.cities) ∧
    (ex.cities ≠ [] →
      (node_intent_recognition st ri ex).entities.cities = ex.cities) ∧
    (ex.cities = [] → st.rewrite_slots.cities ≠ [] →
      (node_intent_recognition st ri ex).entities.cities = st.rewrite_slots.cities) := by
  refine ⟨fun h1 h2 => ?_, fun h1 => ?_, fun h1 h2 => ?_⟩ <;>
    simp only [node_intent_recognition, mergeEntities_cities, supplement_cities]
  · simp [h1, h2]
  · simp [h1, List.isEmpty_iff]
  · simp [h1, h2, List.isEmpty_iff]

/-- Claim C2 witness: a turn supplying no cities keeps the carried city. -/
theorem cities_silent_carry_forward_witness :
    (node_intent_recognition
        { entities := { cities := ["杭州"] } }
        { intent_type := .trip_planning }
        {}).entities.cities = ["杭州"] :=
  (cities_silent_carry_forward
    { entities := { cities := ["杭州"] } }
    { intent_type := .trip_planning } {}).1 rfl rfl

/-- Claim C4: after every merge the excluded list is the de-duplicated
union of carried and new exclusions minus every entry fuzzy-matching the
merged included list; hence excluded and included are disjoint under the
fuzzy match, and a place both newly excluded and present in the accumulated
inclusion list never survives into the merged exclusion list. -/
theorem excluded_included_disjoint (st : GraphState) (ri : UserIntent)
    (ex : Extracted) :
    (node_intent_recognition st ri ex).excluded_places
      = (nub (st.excluded_places ++ ex.excluded_places)).filter
          (fun p => !(fuzzyHit (node_intent_recognition st ri ex).included_places p)) ∧
    (∀ p ∈ (node_intent_recognition st ri ex).excluded_places,
      ∀ inc ∈ (node_intent_recognition st ri ex).included_places,
        strIn inc p = false ∧ strIn p inc = false) ∧
    (∀ p, p ∈ ex.excluded_places →
      p ∈ (node_intent_recognition st ri ex).included_places →
      p ∉ (node_intent_recognition st ri ex).excluded_places) := by
  have hform : (node_intent_recognition st ri ex).excluded_places
      = (nub (st.excluded_places ++ ex.excluded_places)).filter
          (fun p => !(fuzzyHit (node_intent_recognition st ri ex).included_places p)) := by
    simp only [node_intent_recognition, mergeEntities_excluded, mergeEntities_included,
      supplement_excluded, supplement_included]
  refine ⟨hform, fun p hp inc hinc => ?_, fun p _ hpinc hpex => ?_⟩
  · rw [hform] at hp
    have hb := (List.mem_filter.mp hp).2
    have hall : ∀ x ∈ (node_intent_recognition st ri ex).included_places,
        strIn x p = false ∧ strIn p x = false := by
      simpa [fuzzyHit] using hb
    exact hall inc hinc
  · rw [hform] at hpex
    have hb := (List.mem_filter.mp hpex).2
    have hall : ∀ x ∈ (node_intent_recognition st ri ex).included_places,
        strIn x p = false ∧ strIn p x = false := by
      simpa [fuzzyHit] using hb
    exact absurd (strIn_self p) (by simp [(hall p hpinc).1])

/-- Claim C4 witness: a newly excluded place also newly included is dropped
from the merged exclusion list. -/
theorem excluded_included_disjoint_witness :
    "西湖" ∉ (node_intent_recognition {} { intent_type := .trip_planning }
      { excluded_places := ["西湖"], included_places := ["西湖"] }).excluded_places :=
  (excluded_included_disjoint {} { intent_type := .trip_planning }
      { excluded_places := ["西湖"], included_places := ["西湖"] }).2.2
    "西湖" (by decide)
    (by simp [node_intent_recognition, mergeEntities_included, supplement_included, mem_nub])

/-- Claim C7: the preference merge is the order-preserving de-duplicated
previous-then-new union, and merging the same extraction twice yields the
same list (hence the same size) as merging it once; the node's merged
preferences are exactly mergePrefs of the carried and extracted lists. -/
theorem preference_merge_idempotent :
    (∀ (p : Entities) (pe pi : List String) (ne : Extracted),
      (mergeEntities p pe pi ne).1.preferences = mergePrefs p.preferences ne.preferences) ∧
    (∀ P N : List String, mergePrefs P N = if !N.isEmpty then nub (P ++ N) else P) ∧
    (∀ P N : List String, mergePrefs (mergePrefs P N) N = mergePrefs P N) := by
  refine ⟨fun p pe pi ne => mergeEntities_preferences p pe pi ne,
    fun P N => rfl, fun P N => ?_⟩
  rcases hN : N with _ | ⟨a, t⟩
  · rfl
  · have hne : (!(a :: t).isEmpty) = true := rfl
    simp only [mergePrefs, hne, if_pos]
    have h1 : nub (nub (P ++ a :: t) ++ a :: t)
        = nub (nub (P ++ a :: t)) ++ nubAux (nub (P ++ a :: t) ++ []) (a :: t) := by
      simp only [nub]
      exact nubAux_append [] (nubAux [] (P ++ a :: t)) (a :: t)
    rw [h1, List.append_nil, nub_idem]
    have h2 : nubAux (nub (P ++ a :: t)) (a :: t) = [] := by
      refine nubAux_eq_nil fun x hx => ?_
      exact mem_nub.mpr (List.mem_append_right P hx)
    rw [h2, List.append_nil]

/-- Claim C7 witness: merging the same preference twice keeps the list
unchanged. -/
theorem preference_merge_idempotent_witness :
    mergePrefs (mergePrefs ["安静"] ["美食"]) ["美食"] = mergePrefs ["安静"] ["美食"] :=
  preference_merge_idempotent.2.2 ["安静"] ["美食"]

/-- Claim C1: for a turn classified trip_planning or clothing_advice whose
merged entity bag has no city, the clarification gate sets clarify_only and
emits the clarifying question as the final response; the graph then routes
ask, and the trace from the gate is exactly gate-then-memory-update — no
memory-load, weather-fetch, plan or advice stage executes. -/
theorem clarify_gate_short_circuit (s : GraphState) (i : UserIntent)
    (hi : s.intent = some i)
    (ht : i.intent_type = IntentType.trip_planning ∨
          i.intent_type = IntentType.clothing_advice)
    (hc : s.entities.cities = []) :
    (node_clarify_gate s).clarify_only = true ∧
    (node_clarify_gate s).final_response = some askCityResponse ∧
    route_after_clarify (node_clarify_gate s).clarify_only = ClarifyRoute.ask ∧
    (∀ nr : Bool,
      traceFrom
        { clarify_only := (node_clarify_gate s).clarify_only,
          intent := (node_clarify_gate s).intent,
          needs_replan := nr } 12 NodeId.clarifyGate
        = [NodeId.clarifyGate, NodeId.updateMemory]) ∧
    (∀ nr : Bool,
      NodeId.loadMemory ∉ traceFrom
        { clarify_only := (node_clarify_gate s).clarify_only,
          intent := (node_clarify_gate s).intent, needs_replan := nr } 12
        NodeId.clarifyGate ∧
      NodeId.fetchWeather ∉ traceFrom
        { clarify_only := (node_clarify_gate s).clarify_only,
          intent := (node_clarify_gate s).intent, needs_replan := nr } 12
        NodeId.clarifyGate ∧
      NodeId.tripPlanning ∉ traceFrom
        { clarify_only := (node_clarify_gate s).clarify_only,
          intent := (node_clarify_gate s).intent, needs_replan := nr } 12
        NodeId.clarifyGate ∧
      NodeId.clothingAdvice ∉ traceFrom
        { clarify_only := (node_clarify_gate s).clarify_only,
          intent := (node_clarify_gate s).intent, needs_replan := nr } 12
        NodeId.clarifyGate) := by
  have hgate : node_clarify_gate s
      = { final_response := some askCityResponse, clarify_only := true,
          intent := s.intent } := by
    rcases ht with h | h <;>
      simp [node_clarify_gate, hi, h, hc]
  have htrace : ∀ nr : Bool,
      traceFrom
        { clarify_only := (node_clarify_gate s).clarify_only,
          intent := (node_clarify_gate s).intent, needs_replan := nr } 12
        NodeId.clarifyGate
        = [NodeId.clarifyGate, NodeId.updateMemory] := by
    intro nr
    rw [hgate]
    rfl
  refine ⟨by rw [hgate], by rw [hgate], by rw [hgate]; rfl, htrace, fun nr => ?_⟩
  rw [htrace nr]
  refine ⟨by decide, by decide, by decide, by decide⟩

/-- Claim C1 witness: a concrete cityless trip-planning turn is gated. -/
theorem clarify_gate_short_circuit_witness :
    (node_clarify_gate
      { user_input := "帮我安排行程",
        intent := some { intent_type := .trip_planning } }).clarify_only = true :=
  (clarify_gate_short_circuit
    { user_input := "帮我安排行程", intent := some { intent_type := .trip_planning } }
    { intent_type := .trip_planning } rfl (Or.inl rfl) rfl).1

/-- Claim C3: after the trip-planning stage every day's risk tier is the
deterministic function of its weather snapshot's condition text —
storm/snow keyword high, else rain keyword medium, else low — and the
plan's needs_replan flag is the OR over all days of a rain/storm/snow
keyword matching that day. -/
theorem risk_tier_deterministic (wd : List (String × WVal)) (po : PlannerOutputR) :
    (∀ d ∈ (node_trip_planning wd po).1.days,
      d.risk_level = (match d.weather with
        | some w => if snowStormHit w then RiskLevel.high
                    else if rainHit w then RiskLevel.medium
                    else RiskLevel.low
        | none => RiskLevel.low)) ∧
    (node_trip_planning wd po).2 = (node_trip_planning wd po).1.days.any dayReplanHit := by
  have hweather : ∀ d : TripDay, (riskDay d).weather = d.weather := by
    intro d
    simp only [riskDay]
    split_ifs <;> rfl
  have hrisk : ∀ d : TripDay, d.risk_level = RiskLevel.low →
      (riskDay d).risk_level = (match d.weather with
        | some w => if snowStormHit w then RiskLevel.high
                    else if rainHit w then RiskLevel.medium
                    else RiskLevel.low
        | none => RiskLevel.low) := by
    intro d hd
    rcases hw : d.weather with _ | w
    · have h1 : riskDay d = d := by
        simp [riskDay, hw]
      simp [h1, hw, hd]
    · by_cases hs : snowStormHit w = true
      · have h1 : (riskDay d).risk_level = RiskLevel.high := by
          by_cases hr : rainHit w = true <;>
            simp [riskDay, hw, hr, hs]
        simp [h1, hw, hs]
      · by_cases hr : rainHit w = true
        · have h1 : (riskDay d).risk_level = RiskLevel.medium := by
            simp [riskDay, hw, hr, hs]
          simp [h1, hw, hs, hr]
        · have h1 : riskDay d = d := by
            simp [riskDay, hw, hr, hs]
          simp [h1, hw, hs, hr, hd]
  have hlow : ∀ d ∈ (planToTripPlan wd po).days, d.risk_level = RiskLevel.low := by
    intro d hd
    rcases List.mem_map.mp hd with ⟨p, _, rfl⟩
    rfl
  have hhit : ∀ d : TripDay, dayReplanHit (riskDay d) = dayReplanHit d := by
    intro d
    unfold dayReplanHit
    rw [hweather d]
  constructor
  · intro d hd
    rcases List.mem_map.mp hd with ⟨d0, hd0, rfl⟩
    rw [hweather d0]
    exact hrisk d0 (hlow d0 hd0)
  · show (planToTripPlan wd po).days.any dayReplanHit
      = ((planToTripPlan wd po).days.map riskDay).any dayReplanHit
    rw [List.any_map]
    congr 1
    funext d
    simp [Function.comp, hhit d]

/-- Claim C3 witness: the one day of a concrete rainy single-day plan gets
tier medium. -/
theorem risk_tier_deterministic_witness :
    (riskDay { city := "杭州", weather := some { weather := "小雨" } }).risk_level
      = RiskLevel.medium := by
  have h := (risk_tier_deterministic [("杭州", WVal.one { weather := "小雨" })]
      { days := [{ city := "杭州" }] }).1
      (riskDay { city := "杭州", weather := some { weather := "小雨" } })
      (by decide)
  rw [h]
  decide

/-- Claim C5 (amended): on turn start the eleven listed control/output
fields are reset to empty/false, the seven whitelist fields are copied
verbatim from the previous end-state, user_input takes the new input — and
additionally the duration-days default flag reverts to false through the
constructor default, although it is in neither list. -/
theorem turn_state_frame (ui : String) (ls : GraphState) :
    (newTurnState ui (some ls)).rewritten_query = "" ∧
    (newTurnState ui (some ls)).rewrite_slots = {} ∧
    (newTurnState ui (some ls)).need_clarification = false ∧
    (newTurnState ui (some ls)).clarifying_questions = [] ∧
    (newTurnState ui (some ls)).clarify_only = false ∧
    (newTurnState ui (some ls)).intent = none ∧
    (newTurnState ui (some ls)).clothing_advice = "" ∧
    (newTurnState ui (some ls)).final_response = "" ∧
    (newTurnState ui (some ls)).current_node = "" ∧
    (newTurnState ui (some ls)).needs_replan = false ∧
    (newTurnState ui (some ls)).error_message = "" ∧
    (newTurnState ui (some ls)).duration_days_is_default = false ∧
    (newTurnState ui (some ls)).messages = ls.messages ∧
    (newTurnState ui (some ls)).entities = ls.entities ∧
    (newTurnState ui (some ls)).user_profile = ls.user_profile ∧
    (newTurnState ui (some ls)).weather_data = ls.weather_data ∧
    (newTurnState ui (some ls)).trip_plan = ls.trip_plan ∧
    (newTurnState ui (some ls)).excluded_places = ls.excluded_places ∧
    (newTurnState ui (some ls)).included_places = ls.included_places ∧
    (newTurnState ui (some ls)).user_input = ui :=
  ⟨rfl, rfl, rfl, rfl, rfl, rfl, rfl, rfl, rfl, rfl, rfl, rfl, rfl, rfl, rfl,
   rfl, rfl, rfl, rfl, rfl⟩

/-- Claim C5 counterexample: the duration-days default flag is outside both
the claimed reset list and the carry whitelist, yet it does not survive into
the new turn-state — it is forcibly reset to false — so the claim's lists
are not exhaustive as stated. -/
theorem turn_state_frame_counterexample :
    ({ duration_days_is_default := true } : GraphState).duration_days_is_default = true ∧
    (newTurnState "去杭州"
        (some { duration_days_is_default := true })).duration_days_is_default = false := by
  exact ⟨rfl, rfl⟩

/-- Claim C6 (amended): when the rewrite stage finds no duration it sets
duration_days to 1 and the used-default flag; when no rewriter question
already implies trip length, the canned trip-length question is inserted at
the front and survives the truncation to three questions (only when an
implying question sits beyond the first three can truncation drop it — see
the counterexample); and a default-produced duration never overwrites a
carried duration in the entity merge. -/
theorem rewrite_default_duration (r : RewriteResult)
    (h : intTruthy r.slots.duration_days = false) :
    (node_rewrite r).rewrite_slots.duration_days = some 1 ∧
    (node_rewrite r).duration_days_is_default = true ∧
    (r.clarifying_questions.any mentionsDuration = false →
      (node_rewrite r).clarifying_questions
        = (defaultDurationQuestion :: r.clarifying_questions).take 3 ∧
      (node_rewrite r).clarifying_questions.any mentionsDuration = true) ∧
    (∀ (st : GraphState) (ri : UserIntent) (ex : Extracted),
      st.duration_days_is_default = true →
      intTruthy ex.duration_days = false →
      (node_intent_recognition st ri ex).entities.duration_days
        = st.entities.duration_days) := by
  refine ⟨?_, ?_, fun hq => ⟨?_, ?_⟩, fun st ri ex hdd hex => ?_⟩
  · simp [node_rewrite, h]
  · simp [node_rewrite, h]
  · simp [node_rewrite, h, hq]
  · simp only [node_rewrite, h, Bool.not_false, if_pos, hq]
    simp [List.take, List.any_cons]
    left
    decide
  · simp [node_intent_recognition, mergeEntities_duration, supplement_duration,
      hdd, hex]

/-- Claim C6 witness: a duration-less rewrite defaults the duration to one
day and flags it. -/
theorem rewrite_default_duration_witness :
    (node_rewrite { rewritten_query := "杭州一日游" }).rewrite_slots.duration_days
      = some 1 ∧
    (node_rewrite { rewritten_query := "杭州一日游" }).clarifying_questions.any
      mentionsDuration = true :=
  ⟨(rewrite_default_duration { rewritten_query := "杭州一日游" } rfl).1,
   ((rewrite_default_duration { rewritten_query := "杭州一日游" } rfl).2.2.1 rfl).2⟩

/-- Claim C6 counterexample: the rewriter already supplied four questions
and only the fourth mentions trip length, so nothing is inserted and the
truncation to three drops it — the defaulted turn ends with no trip-length
question in its question list, refuting the claim as stated. -/
theorem rewrite_default_duration_counterexample :
    (node_rewrite
      { clarifying_questions :=
          ["想去哪个城市？", "预算多少？", "喜欢什么风格？", "打算玩几天？"] }).duration_days_is_default
        = true ∧
    (node_rewrite
      { clarifying_questions :=
          ["想去哪个城市？", "预算多少？", "喜欢什么风格？", "打算玩几天？"] }).rewrite_slots.duration_days
        = some 1 ∧
    (node_rewrite
      { clarifying_questions :=
          ["想去哪个城市？", "预算多少？", "喜欢什么风格？", "打算玩几天？"] }).clarifying_questions.any
        mentionsDuration = false := by
  refine ⟨?_, ?_, ?_⟩ <;> decide

theorem lookupKV_dictInsert_self (m : List (String × WVal)) (k : String) (v : WVal) :
    lookupKV (dictInsert m k v) k = some v := by
  induction m with
  | nil => simp [dictInsert, lookupKV]
  | cons e t ih =>
    rcases e with ⟨k1, v1⟩
    by_cases h : k1 = k
    · simp [dictInsert, lookupKV, h]
    · simp [dictInsert, lookupKV, h, ih]

theorem lookupKV_dictInsert_ne (m : List (String × WVal)) (k : String) (v : WVal)
    (c : String) (h : c ≠ k) :
    lookupKV (dictInsert m k v) c = lookupKV m c := by
  induction m with
  | nil => simp [dictInsert, lookupKV, Ne.symm h]
  | cons e t ih =>
    rcases e with ⟨k1, v1⟩
    by_cases h1 : k1 = k
    · subst h1
      simp [dictInsert, lookupKV, Ne.symm h]
    · by_cases h2 : k1 = c
      · simp [dictInsert, lookupKV, h1, h2, h]
      · simp [dictInsert, lookupKV, h1, h2, ih]

theorem lookupKV_fetch_fold (val : String → WVal) (cs : List String)
    (m : List (String × WVal)) (c : String)
    (h : c ∈ cs ∨ lookupKV m c = some (val c)) :
    lookupKV (cs.foldl (fun m x => dictInsert m x (val x)) m) c = some (val c) := by
  induction cs generalizing m with
  | nil =>
    rcases h with h | h
    · exact absurd h (List.not_mem_nil c)
    · exact h
  | cons x t ih =>
    rw [List.foldl_cons]
    refine ih (dictInsert m x (val x)) ?_
    by_cases hx : c = x
    · subst hx
      exact Or.inr (lookupKV_dictInsert_self m c (val c))
    · rcases h with h | h
      · rcases List.mem_cons.mp h with h1 | h1
        · exact absurd h1 hx
        · exact Or.inl h1
      · exact Or.inr ((lookupKV_dictInsert_ne m x (val x) c hx).trans h)

/-- Claim C8: the weather-fetch stage fetches a multi-day forecast per known
city exactly for clothing-advice turns of more than one day and a single
current snapshot per known city otherwise; an empty city list is replaced by
the single fixed fallback city, so the weather map is never empty. -/
theorem fetch_weather_variant (getW : String → WeatherInfo)
    (getF : String → Int → List WeatherInfo) (s : GraphState) :
    (∀ c ∈ s.entities.cities,
      lookupKV (node_fetch_weather getW getF s) c
        = some (fetchVariant getW getF
            (match s.intent with | some i => i.intent_type | none => .unknown)
            (pyIntOr1 s.entities.duration_days) c)) ∧
    ((match s.intent with | some i => i.intent_type | none => .unknown)
        = IntentType.clothing_advice → pyIntOr1 s.entities.duration_days > 1 →
      ∀ c ∈ s.entities.cities,
        lookupKV (node_fetch_weather getW getF s) c
          = some (.many (getF c (pyIntOr1 s.entities.duration_days)))) ∧
    (¬((match s.intent with | some i => i.intent_type | none => .unknown)
          = IntentType.clothing_advice ∧ pyIntOr1 s.entities.duration_days > 1) →
      ∀ c ∈ s.entities.cities,
        lookupKV (node_fetch_weather getW getF s) c = some (.one (getW c))) ∧
    (s.entities.cities = [] →
      node_fetch_weather getW getF s
        = [("北京", fetchVariant getW getF
            (match s.intent with | some i => i.intent_type | none => .unknown)
            (pyIntOr1 s.entities.duration_days) "北京")]) ∧
    node_fetch_weather getW getF s ≠ [] := by
  have hmain : ∀ c ∈ s.entities.cities,
      lookupKV (node_fetch_weather getW getF s) c
        = some (fetchVariant getW getF
            (match s.intent with | some i => i.intent_type | none => .unknown)
            (pyIntOr1 s.entities.duration_days) c) := by
    intro c hc
    have hne : s.entities.cities ≠ [] := by
      intro h0
      rw [h0] at hc
      exact List.not_mem_nil c hc
    unfold node_fetch_weather
    rw [if_neg (by simpa [List.isEmpty_iff] using hne)]
    exact lookupKV_fetch_fold _ s.entities.cities [] c (Or.inl hc)
  have hempty : s.entities.cities = [] →
      node_fetch_weather getW getF s
        = [("北京", fetchVariant getW getF
            (match s.intent with | some i => i.intent_type | none => .unknown)
            (pyIntOr1 s.entities.duration_days) "北京")] := by
    intro h0
    unfold node_fetch_weather
    rw [h0]
    rfl
  refine ⟨hmain, fun hi hd c hc => ?_, fun hnot c hc => ?_, hempty, ?_⟩
  · rw [hmain c hc]
    simp [fetchVariant, hi, hd]
  · rw [hmain c hc]
    simp only [fetchVariant, if_neg hnot]
  · rcases hcs : s.entities.cities with _ | ⟨c, t⟩
    · rw [hempty hcs]
      simp
    · intro h0
      have := hmain c (by rw [hcs]; exact List.mem_cons_self c t)
      rw [h0] at this
      simp [lookupKV] at this

/-- Claim C8 witness: a two-day clothing-advice turn with a known city gets
a forecast record for that city. -/
theorem fetch_weather_variant_witness :
    lookupKV
      (node_fetch_weather (fun c => mock_weather c) (fun c d => mock_forecast c d)
        { intent := some { intent_type := .clothing_advice },
          entities := { cities := ["杭州"], duration_days := some 2 } }) "杭州"
      = some (.many (mock_forecast "杭州" 2)) :=
  (fetch_weather_variant (fun c => mock_weather c) (fun c d => mock_forecast c d)
    { intent := some { intent_type := .clothing_advice },
      entities := { cities := ["杭州"], duration_days := some 2 } }).2.1
    rfl (by decide) "杭州" (by decide)

/-- Claim C9 counterexample: on a success-status payload that lacks the
lives array (an unparseable provider payload), get_weather in its live mode
raises a KeyError instead of returning a degraded record, refuting the
claim as stated. -/
theorem weather_no_raise_counterexample :
    get_weather true "北京" c9BadResp Ext.base
      = Except.error (PyError.keyError "lives") := rfl

/-- Claim C9 (amended): without an API key both calls return mock records;
an unknown city and a provider error status yield degraded placeholder
records from both get_weather and get_forecast; get_weather's forecast mode
never raises (its parsing runs inside try/except); and get_forecast
degrades a success payload without forecast blocks to a no-data
placeholder. Only get_weather's live mode can raise, on a success-status
payload whose live data is missing or non-numeric (see the
counterexample). -/
theorem weather_tool_degradation :
    (∀ (city : String) (resp : ProviderResp) (ext : Ext) (d : Option Int),
      get_weather false city resp ext = .ok (mock_weather city) ∧
      get_forecast false city resp d = mock_forecast city (max 1 (pyIntOr1 d))) ∧
    (∀ (city : String) (resp : ProviderResp) (ext : Ext) (d : Option Int),
      getCityCode city = none →
      get_weather true city resp ext = .ok (unknownCityRecord city) ∧
      get_forecast true city resp d = [unknownCityRecord city]) ∧
    (∀ (city : String) (resp : ProviderResp) (ext : Ext) (d : Option Int)
        (code : String),
      getCityCode city = some code → resp.status ≠ some "1" →
      get_weather true city resp ext = .ok (statusFailRecord city resp) ∧
      get_forecast true city resp d = [statusFailRecord city resp]) ∧
    (∀ (city : String) (resp : ProviderResp),
      isOkE (get_weather true city resp Ext.all) = true) ∧
    (∀ (city : String) (resp : ProviderResp) (d : Option Int) (code : String),
      getCityCode city = some code → resp.status = some "1" →
      resp.forecasts.getD [] = [] →
      get_forecast true city resp d
        = [{ city := city, weather := "无数据", suggestion := "未获取到预报数据" }]) := by
  refine ⟨fun city resp ext d => ⟨rfl, rfl⟩,
    fun city resp ext d hc => ?_,
    fun city resp ext d code hc hs => ?_,
    fun city resp => ?_,
    fun city resp d code hc hs hf => ?_⟩
  · exact ⟨by simp [get_weather, hc], by simp [get_forecast, hc]⟩
  · exact ⟨by simp [get_weather, hc, hs], by simp [get_forecast, hc, hs]⟩
  · rcases hc : getCityCode city with _ | code
    · simp [get_weather, hc, isOkE]
    · by_cases hs : resp.status ≠ some "1"
      · simp [get_weather, hc, hs, isOkE]
      · rcases hf : resp.forecasts with _ | fl
        · simp [get_weather, hc, hs, hf, isOkE]
        · rcases fl with _ | ⟨fc, frest⟩
          · simp [get_weather, hc, hs, hf, isOkE]
          · rcases hcast : fc.casts with _ | ⟨cast, crest⟩
            · simp [get_weather, hc, hs, hf, hcast, isOkE]
            · rcases hdt : cast.daytemp with _ | a
              · simp [get_weather, hc, hs, hf, hcast, hdt, isOkE]
              · rcases hnt : cast.nighttemp with _ | b
                · simp [get_weather, hc, hs, hf, hcast, hdt, hnt, isOkE]
                · rcases hpa : parseNum a with _ | x
                  · simp [get_weather, hc, hs, hf, hcast, hdt, hnt, hpa, isOkE]
                  · rcases hpb : parseNum b with _ | y
                    · simp [get_weather, hc, hs, hf, hcast, hdt, hnt, hpa, hpb, isOkE]
                    · simp [get_weather, hc, hs, hf, hcast, hdt, hnt, hpa, hpb, isOkE]
  · simp [get_forecast, hc, hs, hf]

/-- Claim C9 witness: a concrete unknown city yields the degraded record
from both calls. -/
theorem weather_tool_degradation_witness :
    get_weather true "火星" {} Ext.base = .ok (unknownCityRecord "火星") ∧
    get_forecast true "火星" {} none = [unknownCityRecord "火星"] :=
  weather_tool_degradation.2.1 "火星" {} Ext.base none rfl

/-- Claim C10: the clothing-advice stage reads only the first entry of the
weather map in insertion order — responses agree for any two maps sharing
their first entry — and an empty map is handled exactly as a map holding
the live-fetched current weather of the fixed fallback city 北京. -/
theorem clothing_first_record_only (adviseFmt : WeatherInfo → String → String)
    (fetchCurrent : String → WeatherInfo) (s : GraphState) (c : String)
    (w : WVal) (rest rest2 : List (String × WVal)) :
    node_clothing_advice adviseFmt fetchCurrent { s with weather_data := (c, w) :: rest }
      = node_clothing_advice adviseFmt fetchCurrent { s with weather_data := (c, w) :: rest2 } ∧
    node_clothing_advice adviseFmt fetchCurrent { s with weather_data := [] }
      = node_clothing_advice adviseFmt fetchCurrent
          { s with weather_data := [("北京", WVal.one (fetchCurrent "北京"))] } :=
  ⟨rfl, rfl⟩

end IntelliGo
